import Mathlib

/-!
Verification of the CELPIP speaking-practice session controller
(`speech-to-text-project/celpip_practice.py`).

The script is a linear CLI workflow: select a task from a static catalog,
show a preparation countdown, record audio for a fixed duration, transcribe
it via an external recognition service, and persist the audio and a text
transcript to an output directory.

The shallow embedding below models:
* the static `TASKS` catalog as a list of `TaskDefinition` records
  (the Python dict key becomes the `id` field);
* `countdown` by the list of progress lines it prints;
* `transcribe_audio` as a function from the recognition service's possible
  outcomes (modelled by `RecogResult`) to `Except`, where `Except.error`
  stands for a propagating Python exception;
* the filesystem as an association list from paths to file contents,
  with `writeFile` shadowing older entries (mode "w" truncates);
* the session body of `main` (after the task-selection input loop) as
  `runSession`, which also returns the ordered list of phase-entry and
  file-write events so that the linearity of the workflow can be stated.
-/

namespace Celpip

/-- One task record of the Python `TASKS` dict; the dict key is `id`. -/
structure TaskDefinition where
  id : Nat
  name : String
  description : String
  prep : Nat
  speak : Nat
  samples : List String
deriving DecidableEq

/-- Entry 1 of `TASKS`. -/
def task1 : TaskDefinition :=
  { id := 1
    name := "Giving Advice"
    description := "Give advice in response to a friend's or colleague's request"
    prep := 30
    speak := 90
    samples :=
      ["Your friend wants to eat healthier—what do you recommend?",
       "A colleague is stressed about a presentation—how can they prepare?"] }

/-- Entry 2 of `TASKS`. -/
def task2 : TaskDefinition :=
  { id := 2
    name := "Talking About a Personal Experience"
    description := "Describe a memorable past event"
    prep := 30
    speak := 60
    samples :=
      ["Describe a time when you learned something important.",
       "Talk about a time you met someone special."] }

/-- Entry 3 of `TASKS`. -/
def task3 : TaskDefinition :=
  { id := 3
    name := "Describing a Scene"
    description := "Describe clearly what is happening in a provided picture"
    prep := 30
    speak := 60
    samples :=
      ["Describe what you see happening at a community festival.",
       "Describe the scene at a busy café."] }

/-- Entry 4 of `TASKS`. -/
def task4 : TaskDefinition :=
  { id := 4
    name := "Making Predictions"
    description := "Predict likely future events based on a picture"
    prep := 30
    speak := 60
    samples :=
      ["Someone has just missed their bus—what might they do next?",
       "Children are playing soccer—what will happen in the next hour?"] }

/-- Entry 5 of `TASKS`. -/
def task5 : TaskDefinition :=
  { id := 5
    name := "Comparing and Persuading"
    description := "Compare two provided options and persuade a listener"
    prep := 30
    speak := 60
    samples :=
      ["Persuade your friend to choose between two different vacation destinations.",
       "Recommend either a bicycle or scooter to commute to work."] }

/-- Entry 6 of `TASKS`. -/
def task6 : TaskDefinition :=
  { id := 6
    name := "Dealing with a Difficult Situation"
    description := "Explain a problem and request assistance"
    prep := 30
    speak := 60
    samples :=
      ["Your internet service stopped working—call customer support for help.",
       "You received incorrect food at a restaurant—politely ask for the correct order."] }

/-- Entry 7 of `TASKS`. -/
def task7 : TaskDefinition :=
  { id := 7
    name := "Expressing Opinions"
    description := "Give your view on an issue, providing support"
    prep := 30
    speak := 90
    samples :=
      ["Should schools have a mandatory sports program? Why or why not?",
       "Should smoking be banned in all public areas?"] }

/-- Entry 8 of `TASKS`. -/
def task8 : TaskDefinition :=
  { id := 8
    name := "Describing an Unusual Situation"
    description := "Describe an unusual object or scenario clearly over the phone"
    prep := 30
    speak := 60
    samples :=
      ["Explain to your friend what a strange art installation looks like.",
       "Describe an unusual vehicle parked outside your home."] }

/-- The static task catalog (the Python module-level `TASKS` dict). -/
def TASKS : List TaskDefinition :=
  [task1, task2, task3, task4, task5, task6, task7, task8]

/-- Dict lookup `TASKS[id]`; `none` models the spec's `NotFoundError`
(a `KeyError` in Python). -/
def get_task (id : Nat) : Option TaskDefinition :=
  TASKS.find? (fun t => t.id == id)

/-- Python's format spec `{n:02d}`: decimal, zero-padded to width 2. -/
def format02 (n : Nat) : String :=
  if n < 10 then "0" ++ toString n else toString n

/-- `countdown(seconds, message)`, modelled by the list of progress lines it
prints: the loop `for remaining in range(seconds, 0, -1)` prints
`f"{message}: {remaining:02d}s remaining"` once per second. -/
def countdown (seconds : Nat) (message : String) : List String :=
  (List.range seconds).map
    (fun i => message ++ ": " ++ format02 (seconds - i) ++ "s remaining")

/-- The possible outcomes of the external recognition service call
`recognizer.recognize_google(audio)`:
success, `sr.UnknownValueError`, `sr.RequestError`, or any other exception. -/
inductive RecogResult where
  | success (text : String)
  | unknownValue
  | requestError (detail : String)
  | otherError (detail : String)
deriving DecidableEq

/-- `transcribe_audio`: the try/except around `recognize_google`.
`Except.error` models a Python exception propagating out of the function. -/
def transcribe_audio : RecogResult → Except String String
  | .success t => .ok t
  | .unknownValue => .ok "[Unrecognized speech]"
  | .requestError e => .ok ("[API error: " ++ e ++ "]")
  | .otherError e => .error e

/-- The filesystem: an association list from path to file content.
More recent writes are consed in front and shadow older entries. -/
abbrev FS := List (String × String)

/-- `open(path, "w")` followed by a full write: truncating write of
`content` at `path`. -/
def writeFile (fs : FS) (path content : String) : FS :=
  (path, content) :: fs

/-- Reading the file at `path`, `none` when no such file exists. -/
def readFile (fs : FS) (path : String) : Option String :=
  List.lookup path fs

/-- `save_audio(audio, path)`: writes the wav bytes of the audio buffer. -/
def save_audio (fs : FS) (wavData path : String) : FS :=
  writeFile fs path wavData

/-- `save_text(text, path, question)`: writes
`f"Question: {question}\n\n{text}\n"`. -/
def save_text (fs : FS) (text path question : String) : FS :=
  writeFile fs path ("Question: " ++ question ++ "\n\n" ++ text ++ "\n")

/-- Python `str.strip()`: remove leading and trailing whitespace. -/
def strip (s : String) : String :=
  ⟨(((s.data.dropWhile Char.isWhitespace).reverse.dropWhile
      Char.isWhitespace).reverse)⟩

/-- The prompt resolution in `main`:
`question = input(...).strip(); if not question: question = task["samples"][0]`. -/
def resolvePrompt (task : TaskDefinition) (raw : String) : String :=
  if strip raw = "" then task.samples.headD "" else strip raw

/-- The phases of one session run (spec section 4.6). -/
inductive Phase where
  | selectingTask
  | preparing
  | recording
  | transcribing
  | saving
  | done
deriving DecidableEq

/-- An observable event of a run: entering a phase, or writing a file. -/
inductive Event where
  | enterPhase (p : Phase)
  | fileWrite (path : String)
deriving DecidableEq

/-- Everything observable about one session run. -/
structure RunOutcome where
  events : List Event
  prepUpdates : List String
  dirs : List String
  fs : FS
  result : Except String (String × String × String)

/-- `os.path.join(output_dir, f"task{task_id}_{timestamp}")`. -/
def basePath (outputDir : String) (taskId : Nat) (timestamp : String) : String :=
  outputDir ++ "/task" ++ toString taskId ++ "_" ++ timestamp

/-- The session body of `main`, from prompt resolution through saving,
parameterised by the behaviour of the external world: `recOutcome` is what
`record_response` does (`Except.error` models a device error raised by the
microphone), `recogOutcome` is what the recognition service does, `fs0` is
the filesystem before the run and `timestamp` the formatted
`datetime.now()`.  The returned `events` list records phase entries and
file writes in the order they happen; `main` itself has no try/except, so
any exception (`Except.error`) aborts the run at the failing step. -/
def runSession (taskId : Nat) (promptInput outputDir timestamp : String)
    (recOutcome : Except String String) (recogOutcome : RecogResult)
    (fs0 : FS) : RunOutcome :=
  match get_task taskId with
  | none =>
      { events := [.enterPhase .selectingTask]
        prepUpdates := []
        dirs := [outputDir]
        fs := fs0
        result := .error "NotFoundError" }
  | some task =>
      let question := resolvePrompt task promptInput
      let prepUpdates := countdown task.prep "Preparation"
      match recOutcome with
      | .error e =>
          { events := [.enterPhase .selectingTask, .enterPhase .preparing,
                       .enterPhase .recording]
            prepUpdates := prepUpdates
            dirs := [outputDir]
            fs := fs0
            result := .error e }
      | .ok audio =>
          match transcribe_audio recogOutcome with
          | .error e =>
              { events := [.enterPhase .selectingTask, .enterPhase .preparing,
                           .enterPhase .recording, .enterPhase .transcribing]
                prepUpdates := prepUpdates
                dirs := [outputDir]
                fs := fs0
                result := .error e }
          | .ok text =>
              let audioPath := basePath outputDir taskId timestamp ++ ".wav"
              let textPath := basePath outputDir taskId timestamp ++ ".txt"
              let fs1 := save_audio fs0 audio audioPath
              let fs2 := save_text fs1 text textPath question
              { events := [.enterPhase .selectingTask, .enterPhase .preparing,
                           .enterPhase .recording, .enterPhase .transcribing,
                           .enterPhase .saving, .fileWrite audioPath,
                           .fileWrite textPath, .enterPhase .done]
                prepUpdates := prepUpdates
                dirs := [outputDir]
                fs := fs2
                result := .ok (audioPath, textPath, text) }

/-- The complete event sequence of a successful run. -/
def fullTrace (audioPath textPath : String) : List Event :=
  [.enterPhase .selectingTask, .enterPhase .preparing, .enterPhase .recording,
   .enterPhase .transcribing, .enterPhase .saving, .fileWrite audioPath,
   .fileWrite textPath, .enterPhase .done]

end Celpip

namespace Celpip

/-! ## Claim theorems -/

/-- Claim C1: `transcribe_audio` returns the sentinel `"[Unrecognized speech]"`
when the service reports no speech, returns `"[API error: <detail>]"` embedding
the detail when the service request fails, lets any other exception propagate,
and the two recoverable conditions never escape as exceptions (both map to
`Except.ok`). -/
theorem transcribe_audio_recoverable :
    transcribe_audio .unknownValue = .ok "[Unrecognized speech]" ∧
    (∀ e, transcribe_audio (.requestError e) = .ok ("[API error: " ++ e ++ "]")) ∧
    (∀ e, transcribe_audio (.otherError e) = .error e) ∧
    (∀ t, transcribe_audio (.success t) = .ok t) :=
  ⟨rfl, fun _ => rfl, fun _ => rfl, fun _ => rfl⟩

/-- Claim C2: when the recorder raises a device error during the Recording
phase, the run aborts with that error surfaced, the filesystem is unchanged
(no `.wav` or `.txt` artifact is written), and the event trace stops at the
Recording phase with no file-write event. -/
theorem recording_failure_aborts (taskId : Nat)
    (promptInput outputDir timestamp e : String) (recogOutcome : RecogResult)
    (fs0 : FS) (task : TaskDefinition) (h : get_task taskId = some task) :
    (runSession taskId promptInput outputDir timestamp (.error e) recogOutcome fs0).result
      = .error e ∧
    (runSession taskId promptInput outputDir timestamp (.error e) recogOutcome fs0).fs
      = fs0 ∧
    (runSession taskId promptInput outputDir timestamp (.error e) recogOutcome fs0).events
      = [.enterPhase .selectingTask, .enterPhase .preparing, .enterPhase .recording] := by
  simp [runSession, h]

/-- Witness for C2 at a concrete input: task 1, a device error, empty
filesystem. -/
theorem recording_failure_aborts_witness :
    (runSession 1 "" "out" "20250101_000000" (.error "DeviceError") (.success "x") []).result
      = .error "DeviceError" ∧
    (runSession 1 "" "out" "20250101_000000" (.error "DeviceError") (.success "x") []).fs
      = [] ∧
    (runSession 1 "" "out" "20250101_000000" (.error "DeviceError") (.success "x") []).events
      = [.enterPhase .selectingTask, .enterPhase .preparing, .enterPhase .recording] :=
  recording_failure_aborts 1 "" "out" "20250101_000000" "DeviceError" (.success "x") []
    task1 rfl

/-- Claim C3, counterexample: the caller-supplied prompt `" hello "` is
non-empty, yet the controller resolves it to `"hello"`, not to the supplied
string verbatim — the code strips the input before the emptiness check. -/
theorem prompt_not_verbatim :
    " hello " ≠ "" ∧
    get_task 2 = some task2 ∧
    resolvePrompt task2 " hello " = "hello" ∧
    resolvePrompt task2 " hello " ≠ " hello " :=
  ⟨by decide, rfl, rfl, by decide⟩

/-- Claim C3, amended: when the caller-supplied prompt strips to the empty
string the controller resolves it to the chosen task's first sample prompt;
when it is non-empty after stripping, the controller uses the stripped prompt
as the resolved prompt; re-running with the same prompt yields the same
resolved prompt. -/
theorem prompt_resolution_amended (task : TaskDefinition) (raw s : String)
    (rest : List String) (hs : task.samples = s :: rest) :
    (strip raw = "" → resolvePrompt task raw = s) ∧
    (strip raw ≠ "" → resolvePrompt task raw = strip raw) ∧
    resolvePrompt task raw = resolvePrompt task raw := by
  refine ⟨fun h => ?_, fun h => ?_, rfl⟩
  · simp [resolvePrompt, h, hs]
  · simp [resolvePrompt, h]

/-- Witness for the amended C3 at concrete inputs: task 2 with the empty
prompt and with a whitespace-padded prompt. -/
theorem prompt_resolution_amended_witness :
    resolvePrompt task2 "" = "Describe a time when you learned something important." ∧
    resolvePrompt task2 " my question " = "my question" :=
  ⟨(prompt_resolution_amended task2 ""
      "Describe a time when you learned something important."
      ["Talk about a time you met someone special."] rfl).1 rfl,
   (prompt_resolution_amended task2 " my question "
      "Describe a time when you learned something important."
      ["Talk about a time you met someone special."] rfl).2.1 (by decide)⟩

/-- Claim C4: `save_text` writes exactly
`"Question: " ++ prompt ++ "\n\n" ++ text ++ "\n"` at the given path, and
saving twice with identical inputs yields byte-identical file content. -/
theorem save_text_roundtrip (fs : FS) (text path prompt : String) :
    readFile (save_text fs text path prompt) path =
      some ("Question: " ++ prompt ++ "\n\n" ++ text ++ "\n") ∧
    readFile (save_text (save_text fs text path prompt) text path prompt) path =
      readFile (save_text fs text path prompt) path := by
  constructor <;> simp [readFile, save_text, writeFile, List.lookup]

/-- Claim C5: `countdown 0` emits no progress update, and `countdown n` for
`n > 0` emits exactly `n` updates, the `i`-th showing `n - i` seconds
remaining under the given label. -/
theorem countdown_updates (n : Nat) (label : String) (i : Nat) (hi : i < n) :
    countdown 0 label = [] ∧
    (countdown n label).length = n ∧
    (countdown n label).getD i "" =
      label ++ ": " ++ format02 (n - i) ++ "s remaining" := by
  refine ⟨rfl, by simp [countdown], ?_⟩
  have h : i < (countdown n label).length := by simp [countdown]; omega
  rw [List.getD_eq_getElem _ _ h]
  simp [countdown]

/-- Witness for C5: a 5-second countdown has 5 updates and its third line
shows 3 seconds remaining. -/
theorem countdown_updates_witness :
    countdown 0 "Preparation" = [] ∧
    (countdown 5 "Preparation").length = 5 ∧
    (countdown 5 "Preparation").getD 2 "" = "Preparation: 03s remaining" :=
  countdown_updates 5 "Preparation" 2 (by decide)

/-- Claim C6: for every id in the catalog, `get_task` returns a complete
`TaskDefinition` whose `id` field equals the requested id; for every id
outside the catalog, `get_task` returns `none` (the `NotFoundError` case). -/
theorem get_task_total (id : Nat) :
    (id ∈ TASKS.map TaskDefinition.id →
      ∃ t, get_task id = some t ∧ t.id = id) ∧
    (id ∉ TASKS.map TaskDefinition.id → get_task id = none) := by
  constructor
  · intro h
    fin_cases h <;> exact ⟨_, rfl, rfl⟩
  · intro h
    rw [get_task, List.find?_eq_none]
    intro t ht
    simp [TASKS, task1, task2, task3, task4, task5, task6, task7, task8] at ht h
    rcases ht with h1|h1|h1|h1|h1|h1|h1|h1 <;> subst h1 <;> simp <;> omega

/-- Witness for C6: id 3 is found with matching id field, id 99 is not
found. -/
theorem get_task_total_witness :
    (∃ t, get_task 3 = some t ∧ t.id = 3) ∧ get_task 99 = none :=
  ⟨(get_task_total 3).1 (by decide), (get_task_total 99).2 (by decide)⟩

/-- Claim C7: the end-to-end scenario — task 2 has prep 30 and speak 60, the
empty prompt resolves to the task's first sample prompt, and after a
successful recording and a transcription yielding
`"I learned to ride a bike last summer"` the saved `.txt` artifact holds
exactly the expected content. -/
theorem end_to_end_task2 :
    (get_task 2).map TaskDefinition.prep = some 30 ∧
    (get_task 2).map TaskDefinition.speak = some 60 ∧
    (get_task 2).map (fun t => resolvePrompt t "") =
      some "Describe a time when you learned something important." ∧
    readFile (runSession 2 "" "celpip_recordings" "20250101_120000"
        (.ok "WAVBYTES") (.success "I learned to ride a bike last summer") []).fs
      "celpip_recordings/task2_20250101_120000.txt"
    = some "Question: Describe a time when you learned something important.\n\nI learned to ride a bike last summer\n" :=
  ⟨rfl, rfl, rfl, rfl⟩

/-- Claim C8: every run's event trace is a prefix of the canonical sequence
SelectingTask, Preparing, Recording, Transcribing, Saving, write audio,
write text, Done — so phases occur in this strict order, none is revisited,
and no file write happens before transcription is complete — and a
successful run's trace is exactly that sequence, so no phase is skipped. -/
theorem session_phases_linear (taskId : Nat)
    (promptInput outputDir timestamp : String)
    (recOutcome : Except String String) (recogOutcome : RecogResult) (fs0 : FS) :
    (∃ rest,
      (runSession taskId promptInput outputDir timestamp recOutcome recogOutcome fs0).events
          ++ rest
        = fullTrace (basePath outputDir taskId timestamp ++ ".wav")
            (basePath outputDir taskId timestamp ++ ".txt")) ∧
    (∀ a t tr,
      (runSession taskId promptInput outputDir timestamp recOutcome recogOutcome fs0).result
          = .ok (a, t, tr) →
      (runSession taskId promptInput outputDir timestamp recOutcome recogOutcome fs0).events
        = fullTrace (basePath outputDir taskId timestamp ++ ".wav")
            (basePath outputDir taskId timestamp ++ ".txt")) := by
  rcases hg : get_task taskId with _ | task <;>
    rcases recOutcome with e | audio <;>
    rcases recogOutcome with t | _ | e2 | e2 <;>
      simp [runSession, hg, transcribe_audio, fullTrace]

/-- Witness for C8: a concrete successful run's trace equals the canonical
sequence. -/
theorem session_phases_linear_witness :
    (runSession 1 "q" "out" "ts" (.ok "AUDIO") (.success "hi") []).events =
      fullTrace (basePath "out" 1 "ts" ++ ".wav") (basePath "out" 1 "ts" ++ ".txt") :=
  (session_phases_linear 1 "q" "out" "ts" (.ok "AUDIO") (.success "hi") []).2
    (basePath "out" 1 "ts" ++ ".wav") (basePath "out" 1 "ts" ++ ".txt") "hi" rfl

/-- Claim C9: a successful run starting from an empty output location leaves
exactly one `.txt` and one `.wav` file, sharing the base name
`task{taskId}_{timestamp}` inside the output directory, and the output
directory was created. -/
theorem artifacts_after_success (taskId : Nat)
    (promptInput outputDir timestamp audio text : String)
    (task : TaskDefinition) (recogOutcome : RecogResult)
    (h : get_task taskId = some task)
    (hrecog : transcribe_audio recogOutcome = .ok text) :
    (runSession taskId promptInput outputDir timestamp (.ok audio) recogOutcome []).fs =
      [(basePath outputDir taskId timestamp ++ ".txt",
        "Question: " ++ resolvePrompt task promptInput ++ "\n\n" ++ text ++ "\n"),
       (basePath outputDir taskId timestamp ++ ".wav", audio)] ∧
    (runSession taskId promptInput outputDir timestamp (.ok audio) recogOutcome []).dirs
      = [outputDir] := by
  simp [runSession, h, hrecog, save_audio, save_text, writeFile]

/-- Witness for C9 at a concrete successful run on task 2. -/
theorem artifacts_after_success_witness :
    (runSession 2 "" "out" "20250101_000000" (.ok "WAV") (.success "hi") []).fs =
      [(basePath "out" 2 "20250101_000000" ++ ".txt",
        "Question: " ++ resolvePrompt task2 "" ++ "\n\n" ++ "hi" ++ "\n"),
       (basePath "out" 2 "20250101_000000" ++ ".wav", "WAV")] ∧
    (runSession 2 "" "out" "20250101_000000" (.ok "WAV") (.success "hi") []).dirs
      = ["out"] :=
  artifacts_after_success 2 "" "out" "20250101_000000" "WAV" "hi" task2
    (.success "hi") rfl rfl

/-- Claim C10: the controller strips the user-supplied prompt before the
emptiness check — a whitespace-only prompt falls back to the task's first
sample prompt, and a prompt with surrounding whitespace is used in stripped
form, not byte-for-byte. -/
theorem prompt_stripped (task : TaskDefinition) (s : String)
    (rest : List String) (hs : task.samples = s :: rest) :
    resolvePrompt task "   " = s ∧
    resolvePrompt task " my answer " = "my answer" ∧
    (∀ raw, strip raw ≠ "" → resolvePrompt task raw = strip raw) := by
  refine ⟨?_, ?_, fun raw h => ?_⟩
  · have h0 : strip "   " = "" := rfl
    simp [resolvePrompt, h0, hs]
  · have h1 : strip " my answer " = "my answer" := rfl
    rw [resolvePrompt, h1]
    simp
  · simp [resolvePrompt, h]

/-- Witness for C10 at task 2. -/
theorem prompt_stripped_witness :
    resolvePrompt task2 "   " = "Describe a time when you learned something important." ∧
    resolvePrompt task2 " my answer " = "my answer" :=
  ⟨(prompt_stripped task2
      "Describe a time when you learned something important."
      ["Talk about a time you met someone special."] rfl).1,
   (prompt_stripped task2
      "Describe a time when you learned something important."
      ["Talk about a time you met someone special."] rfl).2.1⟩

end Celpip
